import Mathlib

/-!
Verification of the PMSMA obstetric triage engine (`backend/app/triage.py`).

The engine is a pure rule-table scanner: `evaluate_risk` checks a symptom
dictionary against an ordered list of triage rules, short-circuits on the
first RED match, remembers the first YELLOW match, and falls back to a
canonical GREEN result.  We embed the Python values, the rule table and the
evaluation loop shallowly and prove the contract of the engine.
-/

/-- A Python value as it can occur in a symptom dictionary: `None`, a
boolean, an integer, or a string.  This covers every value the rule table
compares against and the malformed inputs the spec discusses. -/
inductive PyVal where
  | none : PyVal
  | bool (b : Bool) : PyVal
  | int (n : Int) : PyVal
  | str (s : String) : PyVal
deriving DecidableEq, Repr

/-- Python `==` on the embedded values.  Crucially, the Python `bool` type
is an `int` subtype, so `True == 1` and `False == 0` hold; strings compare
only with strings, and `None` is equal only to itself. -/
def pyEq : PyVal → PyVal → Bool
  | PyVal.none, PyVal.none => true
  | PyVal.str s, PyVal.str t => s == t
  | PyVal.bool a, PyVal.bool b => a == b
  | PyVal.bool a, PyVal.int n => (if a then (1 : Int) else 0) == n
  | PyVal.int n, PyVal.bool a => n == (if a then (1 : Int) else 0)
  | PyVal.int m, PyVal.int n => m == n
  | _, _ => false

/-- A symptom record: a Python dict of symptom keys to values, embedded as
an association list (concrete dicts have distinct keys). -/
abbrev SymptomRecord : Type := List (String × PyVal)

/-- The call `symptoms.get(key)`: the value stored under `key`, or Python
`None` when the key is absent. -/
def dictGet (s : SymptomRecord) (k : String) : PyVal :=
  (List.lookup k s).getD PyVal.none

/-- Structure `_TriageRule` from `triage.py`: one clinical triage rule. -/
structure _TriageRule where
  risk_level : String
  symptom_key : String
  trigger_value : PyVal
  mandatory_action : String
  clinical_reason : String
deriving DecidableEq, Repr

/-- The result dict `{"risk_level": ..., "mandatory_action": ...,
"clinical_reason": ...}` returned by the engine: exactly three fields. -/
structure TriageResult where
  risk_level : String
  mandatory_action : String
  clinical_reason : String
deriving DecidableEq, Repr

/-- Table `_RULES` from `triage.py`: the ordered PMSMA rule table, 4 RED
rules followed by 3 YELLOW rules, transcribed verbatim. -/
def _RULES : List _TriageRule := [
  { risk_level := "RED",
    symptom_key := "bleeding",
    trigger_value := PyVal.str "heavy",
    mandatory_action :=
      "Go to the nearest government hospital or PHC immediately. Call 108 (ambulance) if unable to travel. Do NOT wait.",
    clinical_reason :=
      "Heavy antepartum or postpartum haemorrhage is a leading direct cause of maternal mortality in India (SRS 2020). Per PMSMA danger-sign protocol, heavy vaginal bleeding warrants immediate obstetric intervention — possible placenta praevia, placental abruption, or uterine rupture." },
  { risk_level := "RED",
    symptom_key := "convulsions",
    trigger_value := PyVal.bool true,
    mandatory_action :=
      "Call 108 immediately. Lay the patient on her left side. Do NOT give anything by mouth. Reach a FIRST REFERRAL UNIT (FRU) at once.",
    clinical_reason :=
      "Convulsions in pregnancy indicate eclampsia until proven otherwise — a hypertensive emergency with high maternal and perinatal mortality risk. PMSMA and NHM protocols mandate emergency magnesium sulphate therapy and immediate referral to an FRU with Comprehensive Emergency Obstetric Care (CEmOC) capability." },
  { risk_level := "RED",
    symptom_key := "severe_headache",
    trigger_value := PyVal.bool true,
    mandatory_action :=
      "Seek emergency care at a government hospital immediately. Monitor blood pressure if possible. Call 108 if BP is ≥ 160/110 mmHg.",
    clinical_reason :=
      "Severe headache in pregnancy — especially in the third trimester — is a cardinal warning sign of pre-eclampsia / imminent eclampsia per PMSMA and WHO ANC guidelines (2016). It may precede convulsions by minutes to hours. Immediate BP assessment and anti-hypertensive + MgSO4 therapy at an FRU is mandatory." },
  { risk_level := "RED",
    symptom_key := "fetal_movement",
    trigger_value := PyVal.str "decreased",
    mandatory_action :=
      "Go to the nearest health facility today for a fetal well-being check (Non-Stress Test or kick-count assessment). Do not delay overnight.",
    clinical_reason :=
      "Decreased or absent fetal movements (fewer than 10 movements in 2 hours) is a recognised danger sign of foetal distress / intrauterine foetal death per PMSMA screening criteria and RCOG guideline (adopted by NHM India). Immediate cardiotocography (CTG) or Doppler assessment is required." },
  { risk_level := "YELLOW",
    symptom_key := "fever",
    trigger_value := PyVal.bool true,
    mandatory_action :=
      "Visit the nearest Primary Health Centre (PHC) or Sub-Centre within 24 hours. Stay hydrated. Carry your ANC card.",
    clinical_reason :=
      "Fever during pregnancy raises concern for malaria, urinary tract infection, or chorioamnionitis — all associated with preterm labour and foetal loss per PMSMA high-risk categorisation. Malaria in pregnancy is notifiable under NHM guidelines and requires prompt blood-smear or RDT testing." },
  { risk_level := "YELLOW",
    symptom_key := "swelling_feet",
    trigger_value := PyVal.bool true,
    mandatory_action :=
      "Visit your ASHA worker or ANM today for blood pressure measurement. If BP > 140/90 mmHg, proceed to PHC immediately. Rest with feet elevated.",
    clinical_reason :=
      "Oedema of the feet and ankles, particularly when sudden or severe, is a high-risk indicator for gestational hypertension / pre-eclampsia under PMSMA screening. Per JSY/ASHA guidelines, BP must be checked and proteinuria ruled out. Generalised oedema with proteinuria meets diagnostic criteria for pre-eclampsia." },
  { risk_level := "YELLOW",
    symptom_key := "abdominal_pain",
    trigger_value := PyVal.str "mild",
    mandatory_action :=
      "Contact your ANM or ASHA worker within 24 hours. Note the frequency, duration, and location of pain. Go to a PHC if pain worsens or becomes rhythmic.",
    clinical_reason :=
      "Mild abdominal pain can signal preterm uterine contractions, urinary tract infection, or early placental abruption. PMSMA ANC visit checklists require evaluation of abdominal pain to exclude threatened preterm labour (< 37 weeks) or round-ligament pain. Rhythmic or worsening pain upgrades the risk to RED immediately." }
]

/-- Constant `_GREEN_RESULT` from `triage.py`: the fixed fallback verdict
returned when no RED or YELLOW rule is triggered. -/
def _GREEN_RESULT : TriageResult :=
  { risk_level := "GREEN",
    mandatory_action :=
      "Continue routine Antenatal Care (ANC). Attend your next scheduled PMSMA check-up (9th, 15th, or 21st of each month at a government facility). Take your prescribed IFA tablets daily and ensure TT vaccination is up to date.",
    clinical_reason :=
      "No danger signs or high-risk indicators detected based on reported symptoms. Low-risk status per PMSMA triage criteria. Regular ANC visits (minimum 4 per WHO / GoI recommendation), iron-folic acid supplementation, and birth preparedness planning should continue as advised by your ANM/ASHA." }

/-- Helper `_build_result` from `triage.py`: the result dict built from a
matched rule. -/
def _build_result (rule : _TriageRule) : TriageResult :=
  { risk_level := rule.risk_level,
    mandatory_action := rule.mandatory_action,
    clinical_reason := rule.clinical_reason }

/-- The test `symptoms.get(rule.symptom_key) == rule.trigger_value`
performed on each rule inside the loop of `evaluate_risk`. -/
def ruleMatches (rule : _TriageRule) (s : SymptomRecord) : Bool :=
  pyEq (dictGet s rule.symptom_key) rule.trigger_value

/-- The `for rule in _RULES` loop of `evaluate_risk`, with the
`matched_yellow` accumulator made explicit: a matching RED rule returns its
result at once; the first matching YELLOW rule is remembered while the scan
continues; after the loop, the remembered YELLOW (if any) wins, else the
GREEN fallback. -/
def scanRules : List _TriageRule → SymptomRecord → Option _TriageRule → TriageResult
  | [], _, Option.some y => _build_result y
  | [], _, Option.none => _GREEN_RESULT
  | rule :: rest, s, my =>
    if ruleMatches rule s then
      if rule.risk_level = "RED" then _build_result rule
      else if rule.risk_level = "YELLOW" ∧ my = Option.none then
        scanRules rest s (Option.some rule)
      else scanRules rest s my
    else scanRules rest s my

/-- A Python object passed as the `symptoms` argument: either a dict or one
of the non-mapping types the spec mentions (string, list, number, `None`). -/
inductive PyObj where
  | dict (d : List (String × PyVal)) : PyObj
  | str (s : String) : PyObj
  | list (xs : List PyVal) : PyObj
  | int (n : Int) : PyObj
  | bool (b : Bool) : PyObj
  | pynone : PyObj
deriving DecidableEq, Repr

/-- The value of `type(x).__name__` for the embedded objects. -/
def typeName : PyObj → String
  | PyObj.dict _ => "dict"
  | PyObj.str _ => "str"
  | PyObj.list _ => "list"
  | PyObj.int _ => "int"
  | PyObj.bool _ => "bool"
  | PyObj.pynone => "NoneType"

/-- The check `isinstance(x, dict)`. -/
def PyObj.isDict : PyObj → Bool
  | PyObj.dict _ => true
  | _ => false

/-- Function `evaluate_risk` from `triage.py`: raises `TypeError` (modelled
as `Except.error`) when the argument is not a dict, otherwise runs the rule
scan and always returns a result. -/
def evaluate_risk : PyObj → Except String TriageResult
  | PyObj.dict s => Except.ok (scanRules _RULES s Option.none)
  | x => Except.error ("symptoms must be a dict, got " ++ typeName x)

/-- The risk level of a successful evaluation, if any. -/
def riskOf : Except String TriageResult → Option String
  | Except.ok r => Option.some r.risk_level
  | Except.error _ => Option.none

/-- The first YELLOW rule in table order whose trigger matches the record,
if any: the value held by `matched_yellow` at the end of the scan when no
RED rule fired. -/
def firstYellow (rules : List _TriageRule) (s : SymptomRecord) : Option _TriageRule :=
  rules.find? (fun r => r.risk_level == "YELLOW" && ruleMatches r s)

/-- When no rule matches at all, the scan falls through to the GREEN
fallback. -/
theorem scanRules_green (rules : List _TriageRule) (s : SymptomRecord)
    (h : ∀ r ∈ rules, ruleMatches r s = false) :
    scanRules rules s Option.none = _GREEN_RESULT := by
  induction rules with
  | nil => rfl
  | cons r rs ih =>
    have hm : ruleMatches r s = false := h r (List.mem_cons_self r rs)
    have ih' := ih (fun x hx => h x (List.mem_cons_of_mem r hx))
    simp [scanRules, hm, ih']

/-- When some RED rule matches, the scan returns the result of a matching
RED rule, whatever YELLOW candidate has been accumulated so far. -/
theorem scanRules_red (rules : List _TriageRule) (s : SymptomRecord)
    (h : ∃ r ∈ rules, r.risk_level = "RED" ∧ ruleMatches r s = true) :
    ∃ r ∈ rules, r.risk_level = "RED" ∧ ruleMatches r s = true ∧
      ∀ my, scanRules rules s my = _build_result r := by
  induction rules with
  | nil => simp at h
  | cons r rs ih =>
    by_cases hm : ruleMatches r s = true
    · by_cases hr : r.risk_level = "RED"
      · exact ⟨r, List.mem_cons_self r rs, hr, hm,
          fun my => by simp [scanRules, hm, hr]⟩
      · have h' : ∃ x ∈ rs, x.risk_level = "RED" ∧ ruleMatches x s = true := by
          rcases h with ⟨x, hx, hxr, hxm⟩
          rcases List.mem_cons.mp hx with rfl | hx'
          · exact absurd hxr hr
          · exact ⟨x, hx', hxr, hxm⟩
        rcases ih h' with ⟨x, hx, hxr, hxm, hloop⟩
        refine ⟨x, List.mem_cons_of_mem r hx, hxr, hxm, fun my => ?_⟩
        by_cases hy : r.risk_level = "YELLOW" ∧ my = Option.none
        · simp [scanRules, hm, hr, hy, hloop]
        · simp [scanRules, hm, hr, hy, hloop]
    · have h' : ∃ x ∈ rs, x.risk_level = "RED" ∧ ruleMatches x s = true := by
        rcases h with ⟨x, hx, hxr, hxm⟩
        rcases List.mem_cons.mp hx with rfl | hx'
        · exact absurd hxm hm
        · exact ⟨x, hx', hxr, hxm⟩
      rcases ih h' with ⟨x, hx, hxr, hxm, hloop⟩
      exact ⟨x, List.mem_cons_of_mem r hx, hxr, hxm,
        fun my => by simp [scanRules, hm, hloop]⟩

/-- Once a YELLOW candidate is held and no RED rule matches, the scan keeps
that candidate to the end and returns its result. -/
theorem scanRules_keep_yellow (rules : List _TriageRule) (s : SymptomRecord)
    (y : _TriageRule)
    (h : ∀ r ∈ rules, r.risk_level = "RED" → ruleMatches r s = false) :
    scanRules rules s (Option.some y) = _build_result y := by
  induction rules with
  | nil => rfl
  | cons r rs ih =>
    have ih' := ih (fun x hx => h x (List.mem_cons_of_mem r hx))
    by_cases hm : ruleMatches r s = true
    · have hr : r.risk_level ≠ "RED" := by
        intro hr
        rw [h r (List.mem_cons_self r rs) hr] at hm
        exact Bool.false_ne_true hm
      simp [scanRules, hm, hr, ih']
    · simp [scanRules, hm, ih']

/-- When no RED rule matches, an empty-handed scan returns the result of
the first matching YELLOW rule, or the GREEN fallback when there is none. -/
theorem scanRules_no_red (rules : List _TriageRule) (s : SymptomRecord)
    (h : ∀ r ∈ rules, r.risk_level = "RED" → ruleMatches r s = false) :
    scanRules rules s Option.none =
      (match firstYellow rules s with
       | Option.some r => _build_result r
       | Option.none => _GREEN_RESULT) := by
  induction rules with
  | nil => rfl
  | cons r rs ih =>
    have hrs : ∀ x ∈ rs, x.risk_level = "RED" → ruleMatches x s = false :=
      fun x hx => h x (List.mem_cons_of_mem r hx)
    have ih' := ih hrs
    by_cases hm : ruleMatches r s = true
    · have hr : r.risk_level ≠ "RED" := by
        intro hr
        rw [h r (List.mem_cons_self r rs) hr] at hm
        exact Bool.false_ne_true hm
      by_cases hy : r.risk_level = "YELLOW"
      · have hfy : firstYellow (r :: rs) s = Option.some r := by
          simp [firstYellow, List.find?_cons_of_pos, hy, hm]
        rw [hfy]
        simp [scanRules, hm, hr, hy, scanRules_keep_yellow rs s r hrs]
      · have hfy : firstYellow (r :: rs) s = firstYellow rs s := by
          have : (r.risk_level == "YELLOW" && ruleMatches r s) = false := by
            simp [hy]
          simp [firstYellow, List.find?_cons_of_neg, this]
        rw [hfy]
        simp [scanRules, hm, hr, hy, ih']
    · have hfy : firstYellow (r :: rs) s = firstYellow rs s := by
        have : (r.risk_level == "YELLOW" && ruleMatches r s) = false := by
          simp [hm]
        simp [firstYellow, List.find?_cons_of_neg, this]
      rw [hfy]
      simp [scanRules, hm, ih']

/-- Every scan result is either the GREEN fallback, the result of some rule
in the list, or the result of the YELLOW candidate already held. -/
theorem scanRules_cases (rules : List _TriageRule) (s : SymptomRecord) :
    ∀ my, scanRules rules s my = _GREEN_RESULT ∨
      (∃ r ∈ rules, scanRules rules s my = _build_result r) ∨
      (∃ y, my = Option.some y ∧ scanRules rules s my = _build_result y) := by
  induction rules with
  | nil =>
    intro my
    cases my with
    | none => exact Or.inl rfl
    | some y => exact Or.inr (Or.inr ⟨y, rfl, rfl⟩)
  | cons r rs ih =>
    intro my
    by_cases hm : ruleMatches r s = true
    · by_cases hr : r.risk_level = "RED"
      · exact Or.inr (Or.inl ⟨r, List.mem_cons_self r rs, by simp [scanRules, hm, hr]⟩)
      · by_cases hy : r.risk_level = "YELLOW" ∧ my = Option.none
        · have heq : scanRules (r :: rs) s my = scanRules rs s (Option.some r) := by
            simp [scanRules, hm, hr, hy]
          rcases ih (Option.some r) with hg | ⟨x, hx, he⟩ | ⟨z, hsome, he⟩
          · exact Or.inl (heq.trans hg)
          · exact Or.inr (Or.inl ⟨x, List.mem_cons_of_mem r hx, heq.trans he⟩)
          · obtain rfl : r = z := Option.some.inj hsome
            exact Or.inr (Or.inl ⟨r, List.mem_cons_self r rs, heq.trans he⟩)
        · have heq : scanRules (r :: rs) s my = scanRules rs s my := by
            simp [scanRules, hm, hr, hy]
          rcases ih my with hg | ⟨x, hx, he⟩ | ⟨z, hsome, he⟩
          · exact Or.inl (heq.trans hg)
          · exact Or.inr (Or.inl ⟨x, List.mem_cons_of_mem r hx, heq.trans he⟩)
          · exact Or.inr (Or.inr ⟨z, hsome, heq.trans he⟩)
    · have heq : scanRules (r :: rs) s my = scanRules rs s my := by
        simp [scanRules, hm]
      rcases ih my with hg | ⟨x, hx, he⟩ | ⟨z, hsome, he⟩
      · exact Or.inl (heq.trans hg)
      · exact Or.inr (Or.inl ⟨x, List.mem_cons_of_mem r hx, heq.trans he⟩)
      · exact Or.inr (Or.inr ⟨z, hsome, heq.trans he⟩)

/-- The scan reads the record only through `dictGet` at the rule keys: two
records that agree there scan identically. -/
theorem scanRules_ext (rules : List _TriageRule) (s t : SymptomRecord)
    (h : ∀ r ∈ rules, dictGet s r.symptom_key = dictGet t r.symptom_key) :
    ∀ my, scanRules rules s my = scanRules rules t my := by
  induction rules with
  | nil => intro my; cases my <;> rfl
  | cons r rs ih =>
    intro my
    have hk : ruleMatches r s = ruleMatches r t := by
      unfold ruleMatches
      rw [h r (List.mem_cons_self r rs)]
    have ih' := ih (fun x hx => h x (List.mem_cons_of_mem r hx))
    simp only [scanRules, hk]
    split_ifs <;> first | rfl | exact ih' _

/-- C1: a symptom record containing at least one RED-triggering key/value
pair makes `evaluate_risk` return a RED verdict — the risk level,
mandatory action and clinical reason of a matching RED rule — regardless
of what other keys or co-occurring YELLOW or RED triggers are present. -/
theorem red_pair_forces_red_verdict (s : SymptomRecord)
    (h : ∃ r ∈ _RULES, r.risk_level = "RED" ∧ ruleMatches r s = true) :
    ∃ r ∈ _RULES, r.risk_level = "RED" ∧ ruleMatches r s = true ∧
      evaluate_risk (PyObj.dict s) = Except.ok (_build_result r) ∧
      (_build_result r).risk_level = "RED" := by
  rcases scanRules_red _RULES s h with ⟨r, hr, hred, hm, hloop⟩
  exact ⟨r, hr, hred, hm, by simp [evaluate_risk, hloop Option.none], by
    simp [_build_result, hred]⟩

/-- Witness for C1 at the record with heavy bleeding plus fever (a RED and
a YELLOW trigger together). -/
theorem red_pair_forces_red_verdict_witness :
    (∃ r ∈ _RULES, r.risk_level = "RED" ∧
      ruleMatches r [("bleeding", PyVal.str "heavy"), ("fever", PyVal.bool true)] = true) ∧
    (∃ r ∈ _RULES, r.risk_level = "RED" ∧
      ruleMatches r [("bleeding", PyVal.str "heavy"), ("fever", PyVal.bool true)] = true ∧
      evaluate_risk (PyObj.dict [("bleeding", PyVal.str "heavy"), ("fever", PyVal.bool true)]) =
        Except.ok (_build_result r) ∧
      (_build_result r).risk_level = "RED") :=
  ⟨by decide, red_pair_forces_red_verdict
    [("bleeding", PyVal.str "heavy"), ("fever", PyVal.bool true)] (by decide)⟩

/-- C2: a symptom record with at least one YELLOW-triggering pair and no
RED-triggering pair yields the verdict of the first matching YELLOW rule
in table order; later YELLOW matches are ignored. -/
theorem yellow_first_match_verdict (s : SymptomRecord)
    (hnored : ∀ r ∈ _RULES, r.risk_level = "RED" → ruleMatches r s = false)
    (hyellow : ∃ r ∈ _RULES, r.risk_level = "YELLOW" ∧ ruleMatches r s = true) :
    ∃ r, firstYellow _RULES s = Option.some r ∧ r.risk_level = "YELLOW" ∧
      ruleMatches r s = true ∧
      evaluate_risk (PyObj.dict s) = Except.ok (_build_result r) := by
  have hsome : (firstYellow _RULES s).isSome := by
    rcases hyellow with ⟨r, hr, hy, hm⟩
    refine List.find?_isSome.mpr ⟨r, hr, ?_⟩
    simp [hy, hm]
  rcases Option.isSome_iff_exists.mp hsome with ⟨r, hfind⟩
  have hfind' : List.find? (fun x => x.risk_level == "YELLOW" && ruleMatches x s) _RULES =
      Option.some r := hfind
  have hp0 := List.find?_some hfind'
  have hp : (r.risk_level == "YELLOW" && ruleMatches r s) = true := hp0
  have hy : r.risk_level = "YELLOW" := by
    have := (Bool.and_eq_true _ _).mp hp
    exact eq_of_beq this.1
  have hm : ruleMatches r s = true := ((Bool.and_eq_true _ _).mp hp).2
  refine ⟨r, hfind, hy, hm, ?_⟩
  have hscan := scanRules_no_red _RULES s hnored
  rw [hfind] at hscan
  simp [evaluate_risk, hscan]

/-- Witness for C2 at the record with both fever and swollen feet: the
verdict is that of the fever rule, the first YELLOW rule in table order. -/
theorem yellow_first_match_verdict_witness :
    (∀ r ∈ _RULES, r.risk_level = "RED" →
      ruleMatches r [("fever", PyVal.bool true), ("swelling_feet", PyVal.bool true)] = false) ∧
    (∃ r ∈ _RULES, r.risk_level = "YELLOW" ∧
      ruleMatches r [("fever", PyVal.bool true), ("swelling_feet", PyVal.bool true)] = true) ∧
    (∃ r, firstYellow _RULES [("fever", PyVal.bool true), ("swelling_feet", PyVal.bool true)] =
        Option.some r ∧ r.risk_level = "YELLOW" ∧
      ruleMatches r [("fever", PyVal.bool true), ("swelling_feet", PyVal.bool true)] = true ∧
      evaluate_risk (PyObj.dict [("fever", PyVal.bool true), ("swelling_feet", PyVal.bool true)]) =
        Except.ok (_build_result r)) :=
  ⟨by decide, by decide, yellow_first_match_verdict
    [("fever", PyVal.bool true), ("swelling_feet", PyVal.bool true)] (by decide) (by decide)⟩

/-- C3: a symptom record in which no key/value pair matches any rule —
including the empty record and records with only unrecognized keys — gets
the one canonical GREEN fallback verdict. -/
theorem no_match_green_verdict (s : SymptomRecord)
    (h : ∀ r ∈ _RULES, ruleMatches r s = false) :
    evaluate_risk (PyObj.dict s) = Except.ok _GREEN_RESULT := by
  simp [evaluate_risk, scanRules_green _RULES s h]

/-- Witness for C3 at the empty record and at a record of unrecognized
keys only. -/
theorem no_match_green_verdict_witness :
    ((∀ r ∈ _RULES, ruleMatches r [] = false) ∧
      evaluate_risk (PyObj.dict []) = Except.ok _GREEN_RESULT) ∧
    ((∀ r ∈ _RULES,
        ruleMatches r [("unknown_symptom", PyVal.str "xyz"), ("random_key", PyVal.int 99)] = false) ∧
      evaluate_risk (PyObj.dict [("unknown_symptom", PyVal.str "xyz"), ("random_key", PyVal.int 99)]) =
        Except.ok _GREEN_RESULT) :=
  ⟨⟨by decide, no_match_green_verdict [] (by decide)⟩,
   ⟨by decide, no_match_green_verdict
     [("unknown_symptom", PyVal.str "xyz"), ("random_key", PyVal.int 99)] (by decide)⟩⟩

/-- C4: `evaluate_risk` fails exactly on non-mapping arguments; every
mapping argument produces a verdict, however malformed its values are. -/
theorem error_iff_not_mapping (x : PyObj) :
    ((∃ e, evaluate_risk x = Except.error e) ↔ x.isDict = false) ∧
    ((∃ r, evaluate_risk x = Except.ok r) ↔ x.isDict = true) := by
  cases x <;> simp [evaluate_risk, PyObj.isDict]

/-- C5: the rule table has no trigger for `fetal_movement = "absent"`:
the code returns the GREEN fallback there, although the same rule fires
RED on `"decreased"` and its own clinical reason names absent movements as
the danger sign being encoded. -/
theorem fetal_movement_absent_not_red :
    evaluate_risk (PyObj.dict [("fetal_movement", PyVal.str "absent")]) =
      Except.ok _GREEN_RESULT ∧
    riskOf (evaluate_risk (PyObj.dict [("fetal_movement", PyVal.str "decreased")])) =
      Option.some "RED" :=
  ⟨rfl, rfl⟩

/-- Counterexample to C6: the integer 1 under `convulsions` does match the
boolean-true trigger (Python equates `True` and `1`), so the record is
classified RED, not left without a risk signal. -/
theorem int_one_matches_convulsions :
    riskOf (evaluate_risk (PyObj.dict [("convulsions", PyVal.int 1)])) =
      Option.some "RED" := rfl

/-- C6 (amended): the string "true" never activates a boolean-true trigger
(all four such records stay GREEN), but the integer 1 activates each of
them, because Python equality treats `True` and `1` as equal. -/
theorem bool_trigger_string_vs_int :
    evaluate_risk (PyObj.dict [("convulsions", PyVal.str "true")]) = Except.ok _GREEN_RESULT ∧
    evaluate_risk (PyObj.dict [("severe_headache", PyVal.str "true")]) = Except.ok _GREEN_RESULT ∧
    evaluate_risk (PyObj.dict [("fever", PyVal.str "true")]) = Except.ok _GREEN_RESULT ∧
    evaluate_risk (PyObj.dict [("swelling_feet", PyVal.str "true")]) = Except.ok _GREEN_RESULT ∧
    riskOf (evaluate_risk (PyObj.dict [("convulsions", PyVal.int 1)])) = Option.some "RED" ∧
    riskOf (evaluate_risk (PyObj.dict [("severe_headache", PyVal.int 1)])) = Option.some "RED" ∧
    riskOf (evaluate_risk (PyObj.dict [("fever", PyVal.int 1)])) = Option.some "YELLOW" ∧
    riskOf (evaluate_risk (PyObj.dict [("swelling_feet", PyVal.int 1)])) = Option.some "YELLOW" :=
  ⟨rfl, rfl, rfl, rfl, rfl, rfl, rfl, rfl⟩

/-- C7: a record in which every rule key is absent or mapped to `None`
gives no trigger any signal, so the verdict is the canonical GREEN one. -/
theorem null_values_green (s : SymptomRecord)
    (h : ∀ r ∈ _RULES, dictGet s r.symptom_key = PyVal.none) :
    evaluate_risk (PyObj.dict s) = Except.ok _GREEN_RESULT := by
  have htv : ∀ x ∈ _RULES, x.trigger_value ≠ PyVal.none := by decide
  have hnm : ∀ r ∈ _RULES, ruleMatches r s = false := by
    intro r hr
    unfold ruleMatches
    rw [h r hr]
    cases hv : r.trigger_value with
    | none => exact absurd hv (htv r hr)
    | bool b => rfl
    | int n => rfl
    | str t => rfl
  simp [evaluate_risk, scanRules_green _RULES s hnm]

/-- Witness for C7 at the record mapping convulsions and fever to `None`. -/
theorem null_values_green_witness :
    (∀ r ∈ _RULES,
      dictGet [("convulsions", PyVal.none), ("fever", PyVal.none)] r.symptom_key =
        PyVal.none) ∧
    evaluate_risk (PyObj.dict [("convulsions", PyVal.none), ("fever", PyVal.none)]) =
      Except.ok _GREEN_RESULT :=
  ⟨by decide, null_values_green [("convulsions", PyVal.none), ("fever", PyVal.none)] (by decide)⟩

/-- C8: the engine is pure and deterministic.  The embedding is a total
function because the source only reads its argument through
`symptoms.get` (no mutation, no I/O, no hidden state), and the verdict is
determined by the values the record holds at the rule keys alone: two
records that agree there — in particular two identical records — receive
identical verdicts. -/
theorem verdict_depends_only_on_record (s t : SymptomRecord)
    (h : ∀ r ∈ _RULES, dictGet s r.symptom_key = dictGet t r.symptom_key) :
    evaluate_risk (PyObj.dict s) = evaluate_risk (PyObj.dict t) := by
  simp [evaluate_risk, scanRules_ext _RULES s t h Option.none]

/-- Witness for C8: a record with an extra unrecognized key and a
different entry order gets the same verdict as its cleaned-up copy. -/
theorem verdict_depends_only_on_record_witness :
    (∀ r ∈ _RULES,
      dictGet [("extra_note", PyVal.int 7), ("fever", PyVal.bool true)] r.symptom_key =
        dictGet [("fever", PyVal.bool true)] r.symptom_key) ∧
    evaluate_risk (PyObj.dict [("extra_note", PyVal.int 7), ("fever", PyVal.bool true)]) =
      evaluate_risk (PyObj.dict [("fever", PyVal.bool true)]) :=
  ⟨by decide, verdict_depends_only_on_record
    [("extra_note", PyVal.int 7), ("fever", PyVal.bool true)]
    [("fever", PyVal.bool true)] (by decide)⟩

/-- C9: every verdict returned on a mapping input is fully populated: its
three fields carry a risk level among RED, YELLOW, GREEN and two non-empty
text fields. -/
theorem verdict_fully_populated (s : SymptomRecord) :
    ∃ r, evaluate_risk (PyObj.dict s) = Except.ok r ∧
      (r.risk_level = "RED" ∨ r.risk_level = "YELLOW" ∨ r.risk_level = "GREEN") ∧
      r.mandatory_action ≠ "" ∧ r.clinical_reason ≠ "" := by
  have hwf : ∀ x ∈ _RULES,
      ((_build_result x).risk_level = "RED" ∨ (_build_result x).risk_level = "YELLOW" ∨
        (_build_result x).risk_level = "GREEN") ∧
      (_build_result x).mandatory_action ≠ "" ∧ (_build_result x).clinical_reason ≠ "" := by
    decide
  have hgr : (_GREEN_RESULT.risk_level = "RED" ∨ _GREEN_RESULT.risk_level = "YELLOW" ∨
      _GREEN_RESULT.risk_level = "GREEN") ∧
      _GREEN_RESULT.mandatory_action ≠ "" ∧ _GREEN_RESULT.clinical_reason ≠ "" := by
    decide
  rcases scanRules_cases _RULES s Option.none with hg | ⟨x, hx, he⟩ | ⟨y, hsome, _⟩
  · exact ⟨_GREEN_RESULT, by simp [evaluate_risk, hg], hgr⟩
  · exact ⟨_build_result x, by simp [evaluate_risk, he], hwf x hx⟩
  · exact absurd hsome (by simp)

/-- C10: the recognized vocabulary value "severe" for abdominal pain
matches no rule, so it falls to GREEN, while the milder value "mild" for
the same key is a YELLOW verdict: the output is not monotone in reported
severity. -/
theorem abdominal_pain_not_monotone :
    evaluate_risk (PyObj.dict [("abdominal_pain", PyVal.str "severe")]) =
      Except.ok _GREEN_RESULT ∧
    riskOf (evaluate_risk (PyObj.dict [("abdominal_pain", PyVal.str "mild")])) =
      Option.some "YELLOW" :=
  ⟨rfl, rfl⟩
